import Mathlib

/-!
Shallow embedding of the command layer of the ccatp telescope-control-system
(`commands.go`).  Go `float64` quantities are modelled as exact rationals `ℚ`;
Go `error` results become `Option`/`Except` values carrying structured error
descriptions; the external motion facade and the scan-pattern boundary are
modelled as explicit parameters and effect traces.
-/

namespace TCS

/-! ## Kinematic envelope constants (`commands.go`, `const` block) -/

def positionTol : ℚ := 1/10000

def speedTol : ℚ := 1/10000

def maxFreeProgramTrackStack : ℕ := 10000

def azimuthMin : ℚ := -180

def azimuthMax : ℚ := 360

def azimuthSpeedMax : ℚ := 3

def azimuthAccelMax : ℚ := 6

def azimuthJerkMax : ℚ := 12

def elevationMin : ℚ := 0

def elevationMax : ℚ := 180

def elevationSpeedMax : ℚ := 3/2

def elevationAccelMax : ℚ := 3/2

def elevationJerkMax : ℚ := 6

/-! ## Kinematic validator (`checkAzEl`) -/

/-- Structured form of the out-of-range errors produced by `checkAzEl`: each
constructor names the offending quantity and carries its value and the
violated bounds, mirroring the formatted Go error strings. -/
inductive AzElError
  | azimuthOutOfRange (az lo hi : ℚ)
  | elevationOutOfRange (el lo hi : ℚ)
  | azimuthVelOutOfRange (vaz lo hi : ℚ)
  | elevationVelOutOfRange (vel lo hi : ℚ)
deriving DecidableEq, Repr

/-- `checkAzEl(az, el, vaz, vel)` from `commands.go`: four sequential range
checks, the first violation is reported.  `none` models the Go `nil` error. -/
def checkAzEl (az el vaz vel : ℚ) : Option AzElError :=
  if az < azimuthMin ∨ az > azimuthMax then
    some (.azimuthOutOfRange az azimuthMin azimuthMax)
  else if el < elevationMin ∨ el > elevationMax then
    some (.elevationOutOfRange el elevationMin elevationMax)
  else if |vaz| > azimuthSpeedMax then
    some (.azimuthVelOutOfRange vaz (-azimuthSpeedMax) azimuthSpeedMax)
  else if |vel| > elevationSpeedMax then
    some (.elevationVelOutOfRange vel (-elevationSpeedMax) elevationSpeedMax)
  else
    none

/-- An `AzElError` correctly names the offending quantity of the input
`(az, el, vaz, vel)` and the violated bound. -/
def reportsViolation (az el vaz vel : ℚ) : AzElError → Prop
  | .azimuthOutOfRange a lo hi =>
      a = az ∧ lo = azimuthMin ∧ hi = azimuthMax ∧ (az < lo ∨ hi < az)
  | .elevationOutOfRange x lo hi =>
      x = el ∧ lo = elevationMin ∧ hi = elevationMax ∧ (el < lo ∨ hi < el)
  | .azimuthVelOutOfRange v lo hi =>
      v = vaz ∧ lo = -azimuthSpeedMax ∧ hi = azimuthSpeedMax ∧ azimuthSpeedMax < |vaz|
  | .elevationVelOutOfRange v lo hi =>
      v = vel ∧ lo = -elevationSpeedMax ∧ hi = elevationSpeedMax ∧ elevationSpeedMax < |vel|

/-! ## Telemetry snapshot (`datasets.StatusGeneral8100`, fields used here) -/

/-- Axis control mode as reported by telemetry.  The embedding only needs to
distinguish `preset` from everything else; other device codes are kept
abstract. -/
inductive AxisMode
  | preset
  | programTrack
  | other (code : ℕ)
deriving DecidableEq, Repr

/-- The telemetry fields of `datasets.StatusGeneral8100` inspected by the
completion predicates in `commands.go`. -/
structure StatusGeneral8100 where
  azimuthMode : AxisMode
  elevationMode : AxisMode
  azimuthCommandedPosition : ℚ
  azimuthCurrentPosition : ℚ
  elevationCommandedPosition : ℚ
  elevationCurrentPosition : ℚ
  azimuthCurrentVelocity : ℚ
  elevationCurrentVelocity : ℚ
  qtyOfFreeProgramTrackStackPositions : ℕ
deriving DecidableEq, Repr

/-! ## Completion predicates (`IsDoneFunc`) -/

/-- The completion predicate closure returned by `moveToCmd.Start`: done when
both axes are in preset mode, both position errors are under `positionTol`,
and both current velocities are under `speedTol`; the error is always `nil`. -/
def moveToIsDone (rec : StatusGeneral8100) : Bool × Option String :=
  (decide (rec.azimuthMode = .preset) &&
     decide (rec.elevationMode = .preset) &&
     decide (|rec.azimuthCurrentPosition - rec.azimuthCommandedPosition| < positionTol) &&
     decide (|rec.elevationCurrentPosition - rec.elevationCommandedPosition| < positionTol) &&
     decide (|rec.azimuthCurrentVelocity| < speedTol) &&
     decide (|rec.elevationCurrentVelocity| < speedTol),
   none)

/-- The completion predicate closure returned by `startPattern`: done when the
free program-track stack count equals capacity − 1 and both current velocities
are under `speedTol`; the error is always `nil`. -/
def patternIsDone (rec : StatusGeneral8100) : Bool × Option String :=
  (decide (rec.qtyOfFreeProgramTrackStackPositions = maxFreeProgramTrackStack - 1) &&
     decide (|rec.azimuthCurrentVelocity| < speedTol) &&
     decide (|rec.elevationCurrentVelocity| < speedTol),
   none)

/-! ## Point command (`moveToCmd`) -/

structure moveToCmd where
  azimuth : ℚ
  elevation : ℚ
deriving DecidableEq, Repr

/-- `moveToCmd.Check`: delegates to the validator with zero velocities. -/
def moveToCmd.check (cmd : moveToCmd) : Option AzElError :=
  checkAzEl cmd.azimuth cmd.elevation 0 0

/-! ## Azimuth scan command (`azScanCmd`) -/

structure azScanCmd where
  azimuthRange : ℚ × ℚ
  elevation : ℚ
  numScans : ℕ
  startTime : ℚ
  turnaroundTime : ℚ
  speed : ℚ
deriving DecidableEq, Repr

/-- `azScanCmd.Check`: a stub in the source ("XXX:TBD"), always succeeds. -/
def azScanCmd.check (_cmd : azScanCmd) : Option AzElError :=
  none

/-! ## Track command (`trackCmd`) -/

structure trackCmd where
  startTime : ℚ
  stopTime : ℚ
  ra : ℚ
  dec : ℚ
  coordsys : String
deriving DecidableEq, Repr

/-- Structured form of the errors produced by `trackCmd.Check`. -/
inductive TrackCheckError
  | badCoordSys (s : String)
  | badTimes (start stop : ℚ)
deriving DecidableEq, Repr

/-- `trackCmd.Check`: the coordinate system must be "Horizon" or "ICRS"
(switch with default error), and the stop time must not precede the start
time. -/
def trackCmd.check (cmd : trackCmd) : Option TrackCheckError :=
  if cmd.coordsys = "Horizon" ∨ cmd.coordsys = "ICRS" then
    if cmd.stopTime < cmd.startTime then
      some (.badTimes cmd.startTime cmd.stopTime)
    else
      none
  else
    some (.badCoordSys cmd.coordsys)

/-! ## Path command (`pathCmd`) and the scan-pattern boundary -/

/-- One entry of `pathCmd.Points`, a `(time, coord1, coord2, vel1, vel2)`
5-tuple (`[5]float64` in the source, indexed 0‥4). -/
structure pathPoint where
  time : ℚ
  coord1 : ℚ
  coord2 : ℚ
  vel1 : ℚ
  vel2 : ℚ
deriving DecidableEq, Repr

/-- A produced trajectory point after conversion to azimuth/elevation
(`datasets.TimePositionTransfer`, the fields read by `pathCmd.Check`). -/
structure scanPoint where
  t : ℚ
  azPosition : ℚ
  elPosition : ℚ
  azVelocity : ℚ
  elVelocity : ℚ
deriving DecidableEq, Repr

/-- Modelled from the spec: the scan-pattern boundary step driven by
`pathCmd.Check` (`NewPathScanPattern` / `Iterator` / `Done` / `Next` live
outside `src/`).  Per the spec the path pattern converts each stored
5-tuple, one point at a time, to an azimuth/elevation `scanPoint`; the
conversion for a given coordinate system is an external transform, kept
abstract as a per-point function that may fail (`Next` may return an
error). -/
def PathConv : Type := pathPoint → Except String scanPoint

/-- Modelled from the spec: the "Horizon" coordinate-system conversion, in
which the stored coordinates already are azimuth/elevation, so the per-point
conversion is the identity re-packaging and never fails. -/
def horizonConv : PathConv :=
  fun p => .ok ⟨p.time, p.coord1, p.coord2, p.vel1, p.vel2⟩

/-- Structured form of the errors produced by `pathCmd.Check`. -/
inductive PathCheckError
  | badCoordSys (s : String)
  | noPoints
  | spacing
  | nextError (e : String)
  | pointError (i : ℕ) (e : AzElError)
deriving DecidableEq, Repr

/-- The consecutive-time-spacing loop of `pathCmd.Check`: returns the spacing
error as soon as two consecutive points are separated by less than 0.05 s
(the float literal 0.05 is the exact rational 5/100). -/
def checkTimes : List pathPoint → Option PathCheckError
  | p :: q :: rest =>
      if q.time - p.time < 5/100 then some .spacing
      else checkTimes (q :: rest)
  | _ => none

/-- The bounded validation loop of `pathCmd.Check`
(`for i := 0; i < 100; i++`): `fuel` is the remaining iteration budget, `i`
the index of the next produced point; the loop stops early when the iterator
is exhausted, and each produced point is checked with `checkAzEl`. -/
def checkPoints (conv : PathConv) : ℕ → ℕ → List pathPoint → Option PathCheckError
  | _, _, [] => none
  | 0, _, _ :: _ => none
  | fuel + 1, i, p :: rest =>
      match conv p with
      | .error e => some (.nextError e)
      | .ok pt =>
          match checkAzEl pt.azPosition pt.elPosition pt.azVelocity pt.elVelocity with
          | some e => some (.pointError i e)
          | none => checkPoints conv fuel (i + 1) rest

structure pathCmd where
  coordsys : String
  points : List pathPoint
deriving DecidableEq, Repr

/-- `pathCmd.Check`: coordinate-system switch, empty-path check, consecutive
spacing check, then validation of the first 100 produced points through a
fresh pattern iterator.  `conv` is the per-point conversion of the pattern
built for `cmd.coordsys`. -/
def pathCmd.check (conv : PathConv) (cmd : pathCmd) : Option PathCheckError :=
  if cmd.coordsys = "Horizon" ∨ cmd.coordsys = "ICRS" then
    if cmd.points = [] then
      some .noPoints
    else
      match checkTimes cmd.points with
      | some e => some e
      | none => checkPoints conv 100 0 cmd.points
  else
    some (.badCoordSys cmd.coordsys)

/-! ## Start phase: facade effect traces

`Start` methods call the external motion facade (`Telescope`).  The embedding
records each facade operation that `Start` issues, in order, and takes the
facade's synchronous results as parameters.  The detached upload task of
`startPattern` is fire-and-forget: its request is recorded as an `upload`
operation at launch, and its eventual failure is only logged, never returned,
so it does not appear in the outcome's error. -/

/-- A primitive motion operation issued against the facade. -/
inductive FacadeOp
  | moveTo (az el : ℚ)
  | upload
  | modeSet (mode : String)
deriving DecidableEq, Repr

/-- The result of a `Start` call: the returned completion predicate (Go `nil`
becomes `none`), the synchronously returned error, and the ordered trace of
facade operations issued. -/
structure StartOutcome where
  isDone : Option (StatusGeneral8100 → Bool × Option String)
  err : Option String
  ops : List FacadeOp

/-- `moveToCmd.Start`: one synchronous `MoveTo` facade call whose result
`moveToErr` is returned alongside the (always constructed) predicate. -/
def moveToCmd.start (moveToErr : Option String) (cmd : moveToCmd) : StartOutcome :=
  ⟨some moveToIsDone, moveToErr, [.moveTo cmd.azimuth cmd.elevation]⟩

/-- `startPattern`: launches the detached upload task, then synchronously sets
the facade mode to "ProgramTrack", returning that call's result `modeSetErr`
alongside the (always constructed) predicate. -/
def startPattern (modeSetErr : Option String) : StartOutcome :=
  ⟨some patternIsDone, modeSetErr, [.upload, .modeSet "ProgramTrack"]⟩

/-- `azScanCmd.Start`: constructs the sweep pattern (construction cannot
fail) and defers to `startPattern`. -/
def azScanCmd.start (modeSetErr : Option String) (_cmd : azScanCmd) : StartOutcome :=
  startPattern modeSetErr

/-- `trackCmd.Start`: requests trajectory generation (`NewTrackScanPattern`,
an external ephemeris transform whose outcome is the parameter `gen`); a
generation failure is returned at once with a `nil` predicate and nothing is
issued to the facade, otherwise it defers to `startPattern`. -/
def trackCmd.start (gen : Except String Unit) (modeSetErr : Option String)
    (_cmd : trackCmd) : StartOutcome :=
  match gen with
  | .error e => ⟨none, some e, []⟩
  | .ok _ => startPattern modeSetErr

/-- `pathCmd.Start`: constructs the path pattern (construction cannot fail)
and defers to `startPattern` unconditionally. -/
def pathCmd.start (modeSetErr : Option String) (_cmd : pathCmd) : StartOutcome :=
  startPattern modeSetErr

/-! ## The `Command` interface -/

/-- The closed set of command variants implementing the `Command` interface. -/
inductive Command
  | point (c : moveToCmd)
  | azScan (c : azScanCmd)
  | track (c : trackCmd)
  | path (c : pathCmd)
deriving DecidableEq, Repr

/-- The error type of `Command.Check`, tagging each variant's errors. -/
inductive CheckError
  | azEl (e : AzElError)
  | track (e : TrackCheckError)
  | path (e : PathCheckError)
deriving DecidableEq, Repr

/-- `Check` dispatched over the variants, in state-passing form: the pair is
the returned error and the command value as observable after the call.  Go
`Check` methods take value receivers and the `pathCmd` variant drives a fresh
pattern iterator per invocation (`pattern.Iterator()`), so no state reachable
from the command is written; the embedding makes that explicit by returning
the command. -/
def Command.checkRun (conv : PathConv) : Command → Option CheckError × Command
  | .point c => ((moveToCmd.check c).map .azEl, .point c)
  | .azScan c => ((azScanCmd.check c).map .azEl, .azScan c)
  | .track c => ((trackCmd.check c).map .track, .track c)
  | .path c => ((pathCmd.check conv c).map .path, .path c)

/-! ## Concrete data used to instantiate theorems on sample inputs -/

/-- A 101-point path whose first 100 points all satisfy the validator. -/
def longPathA : List pathPoint :=
  (List.range 101).map fun i => ⟨(i : ℚ), 1, 1, 0, 0⟩

/-- Same as `longPathA` except that the point at index 100 has a wildly
out-of-envelope coordinate. -/
def longPathB : List pathPoint :=
  (List.range 101).map fun i => ⟨(i : ℚ), if i = 100 then 100000 else 1, 1, 0, 0⟩

/-! # Theorems -/

/-- The validator succeeds exactly on the kinematic envelope. -/
theorem checkAzEl_none_iff (az el vaz vel : ℚ) :
    checkAzEl az el vaz vel = none ↔
      (-180 ≤ az ∧ az ≤ 360 ∧ 0 ≤ el ∧ el ≤ 180 ∧ |vaz| ≤ 3 ∧ |vel| ≤ 3/2) := by
  unfold checkAzEl azimuthMin azimuthMax elevationMin elevationMax azimuthSpeedMax
    elevationSpeedMax
  split_ifs with h1 h2 h3 h4
  · refine iff_of_false (by simp) ?_
    rintro ⟨hmin, hmax, -⟩
    rcases h1 with h | h <;> linarith
  · refine iff_of_false (by simp) ?_
    rintro ⟨-, -, hmin, hmax, -⟩
    rcases h2 with h | h <;> linarith
  · refine iff_of_false (by simp) ?_
    rintro ⟨-, -, -, -, hv, -⟩
    linarith
  · refine iff_of_false (by simp) ?_
    rintro ⟨-, -, -, -, -, hv⟩
    linarith
  · push_neg at h1 h2
    exact iff_of_true rfl ⟨h1.1, h1.2, h2.1, h2.2, not_lt.mp h3, not_lt.mp h4⟩

/-- Every error the validator returns names the offending quantity and the
violated bound. -/
theorem checkAzEl_some_reports (az el vaz vel : ℚ) (e : AzElError)
    (he : checkAzEl az el vaz vel = some e) : reportsViolation az el vaz vel e := by
  unfold checkAzEl azimuthMin azimuthMax elevationMin elevationMax azimuthSpeedMax
    elevationSpeedMax at he
  by_cases h1 : az < -180 ∨ az > 360
  · rw [if_pos h1] at he
    injection he with he
    subst he
    exact ⟨rfl, rfl, rfl, h1⟩
  rw [if_neg h1] at he
  by_cases h2 : el < 0 ∨ el > 180
  · rw [if_pos h2] at he
    injection he with he
    subst he
    exact ⟨rfl, rfl, rfl, h2⟩
  rw [if_neg h2] at he
  by_cases h3 : |vaz| > 3
  · rw [if_pos h3] at he
    injection he with he
    subst he
    exact ⟨rfl, rfl, rfl, h3⟩
  rw [if_neg h3] at he
  by_cases h4 : |vel| > 3/2
  · rw [if_pos h4] at he
    injection he with he
    subst he
    exact ⟨rfl, rfl, rfl, h4⟩
  rw [if_neg h4] at he
  exact absurd he (by simp)

/-- C1: the kinematic validator accepts exactly the inputs with
az ∈ [-180, 360], el ∈ [0, 180], |vaz| ≤ 3 and |vel| ≤ 3/2 (boundary values
included, any value strictly beyond a bound rejected), and every returned
error names the offending quantity and the violated bound. -/
theorem checkAzEl_range_spec (az el vaz vel : ℚ) :
    (checkAzEl az el vaz vel = none ↔
      (-180 ≤ az ∧ az ≤ 360 ∧ 0 ≤ el ∧ el ≤ 180 ∧ |vaz| ≤ 3 ∧ |vel| ≤ 3/2)) ∧
    (∀ e, checkAzEl az el vaz vel = some e → reportsViolation az el vaz vel e) :=
  ⟨checkAzEl_none_iff az el vaz vel,
   fun e he => checkAzEl_some_reports az el vaz vel e he⟩

/-- Witness for C1 at concrete inputs: az = -181 is rejected with an
azimuth-range error naming az and the bounds, az = -180 (exact boundary) is
accepted. -/
theorem checkAzEl_range_spec_witness :
    reportsViolation (-181) 10 0 0
      (AzElError.azimuthOutOfRange (-181) azimuthMin azimuthMax) ∧
    checkAzEl (-180) 10 0 0 = none :=
  ⟨(checkAzEl_range_spec (-181) 10 0 0).2 _ (by decide),
   (checkAzEl_range_spec (-180) 10 0 0).1.mpr (by norm_num)⟩

/-- C2: the Point completion predicate is done exactly when both axes are in
preset mode, both position errors are under 1e-4°, and both current
velocities are under 1e-4°/s in absolute value; its error is always nil. -/
theorem moveToIsDone_spec (rec : StatusGeneral8100) :
    ((moveToIsDone rec).1 = true ↔
      (rec.azimuthMode = .preset ∧ rec.elevationMode = .preset ∧
        |rec.azimuthCurrentPosition - rec.azimuthCommandedPosition| < 1/10000 ∧
        |rec.elevationCurrentPosition - rec.elevationCommandedPosition| < 1/10000 ∧
        |rec.azimuthCurrentVelocity| < 1/10000 ∧
        |rec.elevationCurrentVelocity| < 1/10000)) ∧
    (moveToIsDone rec).2 = none := by
  refine ⟨?_, rfl⟩
  simp [moveToIsDone, positionTol, speedTol, and_assoc]

/-- C3: the pattern completion predicate is done exactly when the free
program-track stack count is 9999 (capacity 10000 minus one) and both current
velocities are under 1e-4°/s; counts 9998 and 10000 give done = false; its
error is always nil. -/
theorem patternIsDone_spec (rec : StatusGeneral8100) :
    ((patternIsDone rec).1 = true ↔
      (rec.qtyOfFreeProgramTrackStackPositions = 9999 ∧
        |rec.azimuthCurrentVelocity| < 1/10000 ∧
        |rec.elevationCurrentVelocity| < 1/10000)) ∧
    (patternIsDone rec).2 = none ∧
    (patternIsDone ⟨.preset, .preset, 0, 0, 0, 0, 0, 0, 9998⟩).1 = false ∧
    (patternIsDone ⟨.preset, .preset, 0, 0, 0, 0, 0, 0, 10000⟩).1 = false := by
  refine ⟨?_, rfl, by decide, by decide⟩
  simp [patternIsDone, maxFreeProgramTrackStack, speedTol, and_assoc]

/-- C5: the Track Check succeeds exactly when the coordinate system is
"Horizon" or "ICRS" and the stop time does not precede the start time; in
particular "Galactic" is rejected and "ICRS" with stop = start is accepted. -/
theorem trackCheck_spec (cmd : trackCmd) :
    (trackCmd.check cmd = none ↔
      ((cmd.coordsys = "Horizon" ∨ cmd.coordsys = "ICRS") ∧
        cmd.startTime ≤ cmd.stopTime)) ∧
    trackCmd.check ⟨0, 0, 0, 0, "Galactic"⟩ = some (TrackCheckError.badCoordSys "Galactic") ∧
    trackCmd.check ⟨5, 5, 1, 2, "ICRS"⟩ = none := by
  refine ⟨?_, by decide, by decide⟩
  unfold trackCmd.check
  split_ifs with h1 h2
  · exact ⟨fun h => h.elim, fun hp => absurd h2 (not_lt.mpr hp.2)⟩
  · exact iff_of_true rfl ⟨h1, le_of_not_lt h2⟩
  · exact ⟨fun h => h.elim, fun hp => absurd hp.1 h1⟩

/-- C4 counterexample: a Path command with an empty point list and an
unrecognized coordinate system fails with the bad-coordinate-system error,
not with the "no points" error — the coordinate-system switch runs first. -/
theorem pathCheck_empty_cex :
    pathCmd.check horizonConv ⟨"Galactic", []⟩ =
      some (PathCheckError.badCoordSys "Galactic") ∧
    pathCmd.check horizonConv ⟨"Galactic", []⟩ ≠ some PathCheckError.noPoints := by
  exact ⟨rfl, by decide⟩

/-- C4 (amended): a Path command with an empty point list always fails, and
fails with the "no points" error whenever the coordinate system is one of the
recognized values; with an unrecognized coordinate system it fails earlier
with the bad-coordinate-system error. -/
theorem pathCheck_empty_spec (conv : PathConv) (cmd : pathCmd)
    (h : cmd.points = []) :
    pathCmd.check conv cmd ≠ none ∧
    ((cmd.coordsys = "Horizon" ∨ cmd.coordsys = "ICRS") →
      pathCmd.check conv cmd = some PathCheckError.noPoints) := by
  unfold pathCmd.check
  by_cases hcs : cmd.coordsys = "Horizon" ∨ cmd.coordsys = "ICRS"
  · rw [if_pos hcs, if_pos h]
    exact ⟨by simp, fun _ => rfl⟩
  · rw [if_neg hcs]
    exact ⟨by simp, fun hc => absurd hc hcs⟩

/-- Witness for C4 (amended) at a concrete empty Path command. -/
theorem pathCheck_empty_spec_witness :
    pathCmd.check horizonConv ⟨"Horizon", []⟩ = some PathCheckError.noPoints :=
  (pathCheck_empty_spec horizonConv ⟨"Horizon", []⟩ rfl).2 (Or.inl rfl)

/-- C8: when trajectory generation fails, `trackCmd.Start` returns the
generation error synchronously with a nil completion predicate, and issues no
facade operation (no upload, no mode-set). -/
theorem trackStart_genFailure (e : String) (modeSetErr : Option String)
    (cmd : trackCmd) :
    (trackCmd.start (Except.error e) modeSetErr cmd).isDone = none ∧
    (trackCmd.start (Except.error e) modeSetErr cmd).err = some e ∧
    (trackCmd.start (Except.error e) modeSetErr cmd).ops = [] :=
  ⟨rfl, rfl, rfl⟩

/-- C9: `Check` is deterministic and mutates no state observable through the
command: in state-passing form the command comes back unchanged, so a second
invocation on the returned command gives the same result (the Path variant
drives a fresh iterator, index 0, inside each invocation of
`pathCmd.check`). -/
theorem checkRun_idempotent (conv : PathConv) (c : Command) :
    Command.checkRun conv ((Command.checkRun conv c).2) = Command.checkRun conv c ∧
    (Command.checkRun conv c).2 = c := by
  cases c <;> exact ⟨rfl, rfl⟩

/-- C10: every `Start` returns its completion predicate even when the
synchronous facade call fails — the Point variant returns `moveToIsDone`
alongside the MoveTo error, and the pattern variants return `patternIsDone`
alongside the ModeSet error; the only nil predicate is the Track variant's
synchronous generation failure. -/
theorem start_returns_predicate (mErr msErr : Option String) (e : String)
    (pc : moveToCmd) (ac : azScanCmd) (tc : trackCmd) (qc : pathCmd) :
    (moveToCmd.start mErr pc).isDone = some moveToIsDone ∧
    (moveToCmd.start mErr pc).err = mErr ∧
    (startPattern msErr).isDone = some patternIsDone ∧
    (startPattern msErr).err = msErr ∧
    (azScanCmd.start msErr ac).isDone = some patternIsDone ∧
    (azScanCmd.start msErr ac).err = msErr ∧
    (pathCmd.start msErr qc).isDone = some patternIsDone ∧
    (pathCmd.start msErr qc).err = msErr ∧
    (trackCmd.start (Except.ok ()) msErr tc).isDone = some patternIsDone ∧
    (trackCmd.start (Except.ok ()) msErr tc).err = msErr ∧
    (trackCmd.start (Except.error e) msErr tc).isDone = none ∧
    (trackCmd.start (Except.error e) msErr tc).err = some e :=
  ⟨rfl, rfl, rfl, rfl, rfl, rfl, rfl, rfl, rfl, rfl, rfl, rfl⟩

/-- The spacing loop only ever produces the spacing error. -/
theorem checkTimes_spacing_only : ∀ (pts : List pathPoint) (e : PathCheckError),
    checkTimes pts = some e → e = PathCheckError.spacing
  | [], e, h => by simp [checkTimes] at h
  | [_], e, h => by simp [checkTimes] at h
  | p :: q :: rest, e, h => by
      unfold checkTimes at h
      split_ifs at h with hlt
      · injection h with h
        exact h.symm
      · exact checkTimes_spacing_only (q :: rest) e h

/-- The spacing loop succeeds exactly when every two consecutive points are
separated by at least 0.05 s. -/
theorem checkTimes_eq_none_iff : ∀ pts : List pathPoint,
    checkTimes pts = none ↔
      List.Chain' (fun p q : pathPoint => 5/100 ≤ q.time - p.time) pts
  | [] => by simp [checkTimes]
  | [_] => by simp [checkTimes]
  | p :: q :: rest => by
      rw [List.chain'_cons]
      unfold checkTimes
      split_ifs with hlt
      · exact iff_of_false (by simp) (fun hc => absurd hlt (not_lt.mpr hc.1))
      · rw [checkTimes_eq_none_iff (q :: rest)]
        simp [not_lt.mp hlt]

/-- The bounded point-validation loop never produces the spacing error. -/
theorem checkPoints_ne_spacing (conv : PathConv) : ∀ (fuel i : ℕ)
    (pts : List pathPoint),
    checkPoints conv fuel i pts ≠ some PathCheckError.spacing
  | fuel, _, [] => by cases fuel <;> simp [checkPoints]
  | 0, _, _ :: _ => by simp [checkPoints]
  | fuel + 1, i, p :: rest => by
      simp only [checkPoints]
      cases hc : conv p with
      | error e => simp
      | ok pt =>
          cases ha : checkAzEl pt.azPosition pt.elPosition pt.azVelocity pt.elVelocity with
          | some e => simp [ha]
          | none =>
              simp only [ha]
              exact checkPoints_ne_spacing conv fuel (i + 1) rest

/-- The spacing loop's result depends only on the points' times. -/
theorem checkTimes_times_congr : ∀ (pts ps : List pathPoint),
    pts.map pathPoint.time = ps.map pathPoint.time →
    checkTimes pts = checkTimes ps
  | [], [], _ => rfl
  | [], _ :: _, h => by simp at h
  | _ :: _, [], h => by simp at h
  | [_], [_], _ => rfl
  | [_], _ :: _ :: _, h => by simp at h
  | _ :: _ :: _, [_], h => by simp at h
  | p :: p₂ :: ps₂, q :: q₂ :: qs₂, h => by
      simp only [List.map_cons, List.cons.injEq] at h
      obtain ⟨h1, h2, h3⟩ := h
      unfold checkTimes
      rw [h1, h2, checkTimes_times_congr (p₂ :: ps₂) (q₂ :: qs₂) (by simp [h2, h3])]

/-- The bounded point-validation loop looks only at the first `fuel` points. -/
theorem checkPoints_take_congr (conv : PathConv) : ∀ (fuel i : ℕ)
    (pts ps : List pathPoint),
    pts.take fuel = ps.take fuel →
    checkPoints conv fuel i pts = checkPoints conv fuel i ps
  | 0, _, pts, ps, _ => by cases pts <;> cases ps <;> rfl
  | _ + 1, _, [], [], _ => rfl
  | _ + 1, _, [], _ :: _, h => by simp [List.take] at h
  | _ + 1, _, _ :: _, [], h => by simp [List.take] at h
  | fuel + 1, i, p :: ps₂, q :: qs₂, h => by
      simp only [List.take_succ_cons, List.cons.injEq] at h
      obtain ⟨rfl, htail⟩ := h
      simp only [checkPoints]
      rw [checkPoints_take_congr conv fuel (i + 1) ps₂ qs₂ htail]

/-- A point-validation error reports an index below `i + fuel`. -/
theorem checkPoints_pointError_lt (conv : PathConv) : ∀ (fuel i₀ : ℕ)
    (pts : List pathPoint) (i : ℕ) (e : AzElError),
    checkPoints conv fuel i₀ pts = some (PathCheckError.pointError i e) →
    i < i₀ + fuel
  | fuel, _, [], _, _, h => by cases fuel <;> simp [checkPoints] at h
  | 0, _, _ :: _, _, _, h => by simp [checkPoints] at h
  | fuel + 1, i₀, p :: rest, i, e, h => by
      simp only [checkPoints] at h
      split at h
      · simp at h
      · split at h
        · simp at h
          omega
        · have := checkPoints_pointError_lt conv fuel (i₀ + 1) rest i e h
          omega

/-- C6: for a Path command with a recognized coordinate system and a
non-empty point list, Check reports the spacing error exactly when some two
consecutive points' times differ by less than 0.05 s; when every consecutive
difference is at least 0.05 s the spacing error is not reported. -/
theorem pathCheck_spacing_spec (conv : PathConv) (cmd : pathCmd)
    (hcs : cmd.coordsys = "Horizon" ∨ cmd.coordsys = "ICRS")
    (hne : cmd.points ≠ []) :
    pathCmd.check conv cmd = some PathCheckError.spacing ↔
      ¬ List.Chain' (fun p q : pathPoint => 5/100 ≤ q.time - p.time) cmd.points := by
  unfold pathCmd.check
  rw [if_pos hcs, if_neg hne]
  cases hct : checkTimes cmd.points with
  | none =>
      have hch := (checkTimes_eq_none_iff cmd.points).mp hct
      exact iff_of_false (checkPoints_ne_spacing conv 100 0 cmd.points)
        (not_not_intro hch)
  | some e =>
      have he := checkTimes_spacing_only cmd.points e hct
      subst he
      refine iff_of_true rfl fun hch => ?_
      have h0 := (checkTimes_eq_none_iff cmd.points).mpr hch
      rw [hct] at h0
      exact Option.noConfusion h0

/-- Witness for C6: two points at times 0 and 0.0499 give the spacing error;
two points at times 0 and 0.05 do not. -/
theorem pathCheck_spacing_spec_witness :
    pathCmd.check horizonConv ⟨"Horizon", [⟨0, 0, 0, 0, 0⟩, ⟨499/10000, 0, 0, 0, 0⟩]⟩ =
      some PathCheckError.spacing ∧
    pathCmd.check horizonConv ⟨"Horizon", [⟨0, 1, 1, 0, 0⟩, ⟨5/100, 1, 1, 0, 0⟩]⟩ ≠
      some PathCheckError.spacing := by
  constructor
  · exact (pathCheck_spacing_spec horizonConv _ (Or.inl rfl) (by simp)).mpr
      (by norm_num [List.chain'_cons])
  · intro h
    exact (pathCheck_spacing_spec horizonConv _ (Or.inl rfl) (by simp)).mp h
      (by norm_num [List.chain'_cons])

/-- C7: Check's result on a Path command depends only on the points' times
and on the first 100 points — with equal coordinate systems, equal time
sequences and equal first-100 prefixes the result is the same, so the
envelope of points at index 100 and beyond has no effect — and a
point-validation error always names an index below 100. -/
theorem pathCheck_first100_spec (conv : PathConv) (cmd cmd' : pathCmd)
    (hcs : cmd.coordsys = cmd'.coordsys)
    (htimes : cmd.points.map pathPoint.time = cmd'.points.map pathPoint.time)
    (htake : cmd.points.take 100 = cmd'.points.take 100) :
    pathCmd.check conv cmd = pathCmd.check conv cmd' ∧
    (∀ i e, pathCmd.check conv cmd = some (PathCheckError.pointError i e) →
      i < 100) := by
  have hnil : (cmd.points = []) ↔ (cmd'.points = []) := by
    constructor <;> intro h0
    · cases h1 : cmd'.points with
      | nil => rfl
      | cons a l =>
          rw [h0, h1] at htimes
          simp at htimes
    · cases h1 : cmd.points with
      | nil => rfl
      | cons a l =>
          rw [h0, h1] at htimes
          simp at htimes
  constructor
  · unfold pathCmd.check
    rw [hcs]
    by_cases hcsv : cmd'.coordsys = "Horizon" ∨ cmd'.coordsys = "ICRS"
    · rw [if_pos hcsv, if_pos hcsv]
      by_cases h0 : cmd.points = []
      · rw [if_pos h0, if_pos (hnil.mp h0)]
      · rw [if_neg h0, if_neg (fun hh => h0 (hnil.mpr hh))]
        rw [checkTimes_times_congr cmd.points cmd'.points htimes]
        cases hct : checkTimes cmd'.points with
        | some e => rfl
        | none => exact checkPoints_take_congr conv 100 0 cmd.points cmd'.points htake
    · rw [if_neg hcsv, if_neg hcsv]
  · intro i e hpe
    unfold pathCmd.check at hpe
    by_cases hcsv : cmd.coordsys = "Horizon" ∨ cmd.coordsys = "ICRS"
    · rw [if_pos hcsv] at hpe
      by_cases h0 : cmd.points = []
      · rw [if_pos h0] at hpe
        exact absurd hpe (by simp)
      · rw [if_neg h0] at hpe
        cases hct : checkTimes cmd.points with
        | some e₂ =>
            rw [hct] at hpe
            have he₂ := checkTimes_spacing_only cmd.points e₂ hct
            subst he₂
            exact absurd hpe (by simp)
        | none =>
            rw [hct] at hpe
            have := checkPoints_pointError_lt conv 100 0 cmd.points i e hpe
            omega
    · rw [if_neg hcsv] at hpe
      exact absurd hpe (by simp)

/-- Witness for C7: two concrete 101-point paths agreeing on all times and on
the first 100 points, differing wildly in the point at index 100, get the
same Check result. -/
theorem pathCheck_first100_spec_witness :
    pathCmd.check horizonConv ⟨"Horizon", longPathA⟩ =
      pathCmd.check horizonConv ⟨"Horizon", longPathB⟩ :=
  (pathCheck_first100_spec horizonConv ⟨"Horizon", longPathA⟩
    ⟨"Horizon", longPathB⟩ rfl (by decide) (by decide)).1

end TCS
